import Mathlib

/-!
Verification of the OpenCTI MCP HTTP transport layer.

The definitions below are a shallow embedding of the HttpOnceTransport
class, the /mcp express route and the tools/call dispatch found in the
repository (tool-definitions.ts server section, index-http.ts,
request-handler.ts). JavaScript runtime values that can flow through the
transport are modelled by the type JVal, including the undefined value,
so that truthiness, the typeof operator, the in operator and property
access behave as in the source.
-/

namespace OpenCTIMcp

/-- JavaScript values as produced by express json body parsing, extended
with the undefined value so that property access on absent fields is
modelled faithfully. Numbers are modelled as integers, which covers every
id and error code appearing in the transport. -/
inductive JVal where
  | vnull
  | vundefined
  | vbool (b : Bool)
  | vnum (n : Int)
  | vstr (s : String)
  | varr (elems : List JVal)
  | vobj (fields : List (String × JVal))

/-- JavaScript truthiness: null, undefined, false, 0 and the empty string
are falsy; every array and object is truthy. -/
def truthy : JVal → Bool
  | .vnull => false
  | .vundefined => false
  | .vbool b => b
  | .vnum n => n != 0
  | .vstr s => s != ""
  | .varr _ => true
  | .vobj _ => true

/-- Whether typeof x evaluates to the string object in JavaScript: true
for null, arrays and plain objects. -/
def typeofObject : JVal → Bool
  | .vnull => true
  | .varr _ => true
  | .vobj _ => true
  | _ => false

/-- The JavaScript in operator on an object or array receiver. Arrays
obtained from JSON carry no named properties besides length. -/
def hasField (v : JVal) (k : String) : Bool :=
  match v with
  | .vobj fs => fs.any (fun p => p.1 == k)
  | .varr _ => k == "length"
  | _ => false

/-- Property access x.k for receivers on which it does not throw (every
value except null and undefined); absent properties give undefined. The
single place where the source accesses a property of a possibly null
value is modelled explicitly at that call site. -/
def getField (v : JVal) (k : String) : JVal :=
  match v with
  | .vobj fs =>
    match fs.find? (fun p => p.1 == k) with
    | some p => p.2
    | none => .vundefined
  | _ => .vundefined

/-- The JavaScript expression a or-else b, returning a when truthy and b
otherwise. -/
def jsOr (a b : JVal) : JVal := if truthy a then a else b

/-- Strict equality of a value against a string literal, as in the
source comparisons of the method and jsonrpc fields. -/
def strictEqStr (v : JVal) (s : String) : Bool :=
  match v with
  | .vstr t => t == s
  | _ => false

/-- Whether a value is the undefined value. -/
def isUndef : JVal → Bool
  | .vundefined => true
  | _ => false

/-- Whether a value is null or undefined, the receivers on which property
access throws a TypeError. -/
def isNullOrUndef : JVal → Bool
  | .vnull => true
  | .vundefined => true
  | _ => false

/-- One observable HTTP write reaching the client: a status code and an
optional JSON body (none models an ended response with empty body). -/
structure HttpWrite where
  status : Nat
  body : Option JVal

/-- Observable state of one HttpOnceTransport instance together with its
express response object and the traces of its callback invocations.
The responded field is the private responded flag of the class; resolved
records whether the completion promise has been resolved; writes records,
in order, the HTTP writes that actually reached the client (headersSent
corresponds to writes being nonempty); delivered records the messages
handed to the onmessage sink of the session engine; errors counts the
onerror invocations; escaped records that an exception escaped a method
of the transport uncaught. -/
structure AdapterState where
  responded : Bool
  resolved : Bool
  writes : List HttpWrite
  delivered : List JVal
  errors : Nat
  escaped : Bool

/-- State of a freshly constructed transport. -/
def mkState : AdapterState :=
  { responded := false, resolved := false, writes := [], delivered := [],
    errors := 0, escaped := false }

/-- Body of a JSON-RPC error response as assembled at the various
sendError style call sites of the source. -/
def errorBody (code : Int) (msg : String) (idv : JVal) : JVal :=
  .vobj [("jsonrpc", .vstr "2.0"), ("id", idv),
         ("error", .vobj [("code", .vnum code), ("message", .vstr msg)])]

/-- The test in send deciding the verbatim path: message truthy, a truthy
jsonrpc field, and an id field that is not strictly undefined. -/
def isDirectResponse (m : JVal) : Bool :=
  truthy m && truthy (getField m "jsonrpc") && !(isUndef (getField m "id"))

/-- Body built on the wrap path of send: jsonrpc 2.0, id taken from the
inbound message with optional chaining and an or-else null, and the raw
message as the result field. -/
def wrapBody (inbound m : JVal) : JVal :=
  .vobj [("jsonrpc", .vstr "2.0"),
         ("id", jsOr (getField inbound "id") .vnull),
         ("result", m)]

/-- The send method of HttpOnceTransport. A second call after responded is
a logged no-op. Otherwise responded is set, then the response is written:
verbatim when the message already looks like a complete response, wrapped
otherwise. Writing a plain JSON value never throws, so the catch branch of
the source is reachable only when the headers were already sent by a
different path; in that case express raises, the fallback write is skipped
because headersSent is true, and the finally block still resolves the
completion promise. -/
def jsSend (inbound m : JVal) (s : AdapterState) : AdapterState :=
  if s.responded then s
  else
    let s1 := { s with responded := true }
    if s1.writes.isEmpty then
      if isDirectResponse m then
        { s1 with writes := s1.writes ++ [⟨200, some m⟩], resolved := true }
      else
        { s1 with writes := s1.writes ++ [⟨200, some (wrapBody inbound m)⟩],
                  resolved := true }
    else
      { s1 with resolved := true }

/-- The private sendError method. Returns the new state and whether the
call threw. It throws exactly when the write fails because headers were
already sent; the source has no try around this write, so in that case
the completion promise is not resolved and the exception propagates to
the caller. -/
def jsSendErrorT (code : Int) (msg : String) (idv : JVal) (s : AdapterState) :
    AdapterState × Bool :=
  if s.responded then (s, false)
  else
    let s1 := { s with responded := true }
    if s1.writes.isEmpty then
      ({ s1 with writes := s1.writes ++ [⟨200, some (errorBody code msg idv)⟩],
                 resolved := true }, false)
    else
      (s1, true)

/-- The close method: write a no-content response only when nothing was
responded and no headers were sent, then run the onclose callback. -/
def jsClose (s : AdapterState) : AdapterState :=
  if !s.responded && s.writes.isEmpty then
    { s with writes := s.writes ++ [⟨204, none⟩], resolved := true }
  else s

/-- The handshake response assembled inline in start for the method named
initialize, with the id copied from the inbound message. -/
def handshakeResponse (inbound : JVal) : JVal :=
  .vobj [("jsonrpc", .vstr "2.0"),
         ("id", getField inbound "id"),
         ("result", .vobj [
            ("protocolVersion", .vstr "2024-11-05"),
            ("capabilities", .vobj [
               ("tools", .vobj [("listChanged", .vbool false)]),
               ("logging", .vobj [])]),
            ("serverInfo", .vobj [
               ("name", .vstr "opencti-server"),
               ("version", .vstr "0.1.0")])])]

/-- The inline response to the ping method: an empty result object and
the id copied from the inbound message. -/
def pingResponse (inbound : JVal) : JVal :=
  .vobj [("jsonrpc", .vstr "2.0"), ("id", getField inbound "id"),
         ("result", .vobj [])]

/-- The branch of start for the method notifications/initialized: set
responded, end the response with status 204 (a no-op when headers were
already sent), resolve the completion promise. -/
def ackNoContent (s : AdapterState) : AdapterState :=
  let s1 := { s with responded := true }
  let s2 := if s1.writes.isEmpty then { s1 with writes := s1.writes ++ [⟨204, none⟩] }
            else s1
  { s2 with resolved := true }

/-- Delivery of a list of messages to the onmessage sink in order. The
oracle d says whether the sink throws on a given message; a throw aborts
the remaining deliveries and propagates. -/
def deliverSeq (d : JVal → Bool) (msgs : List JVal) (s : AdapterState) :
    AdapterState × Bool :=
  match msgs with
  | [] => (s, false)
  | m :: rest =>
    let s1 := { s with delivered := s.delivered ++ [m] }
    if d m then (s1, true) else deliverSeq d rest s1

/-- The try block of start, translated branch for branch from the source:
structural validation, the three inline methods, the two invalid-request
format checks, then delivery to the session engine sink (element-wise for
an array value, once otherwise) followed by the await of the completion
promise, which has no state effect. Returns the state and whether the
block threw. -/
def startTry (d : JVal → Bool) (i : JVal) (s : AdapterState) :
    AdapterState × Bool :=
  if !(truthy i) || !(typeofObject i) then
    (s, true)
  else if strictEqStr (getField i "method") "initialize" then
    (jsSend i (handshakeResponse i) s, false)
  else if strictEqStr (getField i "method") "notifications/initialized" then
    (ackNoContent s, false)
  else if strictEqStr (getField i "method") "ping" then
    (jsSend i (pingResponse i) s, false)
  else if hasField i "id" &&
      (!(truthy (getField i "jsonrpc")) || !(truthy (getField i "method"))) then
    jsSendErrorT (-32600) "Invalid Request" .vnull s
  else if !(hasField i "id") && !(truthy (getField i "method")) then
    jsSendErrorT (-32600) "Invalid Request" .vnull s
  else
    match i with
    | .varr elems => deliverSeq d elems s
    | _ => deliverSeq d [i] s

/-- The catch block of start: route the exception to onerror, then, when
not yet responded, send an internal error with the inbound id or-else
null. Reading the id field of a null or undefined inbound value itself
throws a TypeError, which escapes the catch block. -/
def startCatch (i : JVal) (s : AdapterState) : AdapterState × Bool :=
  let s1 := { s with errors := s.errors + 1 }
  if s1.responded then (s1, false)
  else if isNullOrUndef i then (s1, true)
  else jsSendErrorT (-32603) "Internal error" (jsOr (getField i "id") .vnull) s1

/-- The start method: run the try block and, when it throws, the catch
block; an exception leaving the catch block escapes start and is recorded
in the escaped flag. -/
def jsStart (d : JVal → Bool) (i : JVal) (s : AdapterState) : AdapterState :=
  let p := startTry d i s
  if p.2 then
    let q := startCatch i p.1
    if q.2 then { q.1 with escaped := true } else q.1
  else p.1

/-- One invocation on a transport instance: start with a given throw
oracle for the sink, send of a message, the private sendError, or close.
An exception escaping sendError when invoked directly is recorded in the
escaped flag. -/
inductive AdapterOp where
  | opStart (d : JVal → Bool)
  | opSend (m : JVal)
  | opSendErr (code : Int) (msg : String) (idv : JVal)
  | opClose

/-- Effect of one invocation on the adapter state. -/
def stepOp (i : JVal) (s : AdapterState) : AdapterOp → AdapterState
  | .opStart d => jsStart d i s
  | .opSend m => jsSend i m s
  | .opSendErr c msg idv =>
    let p := jsSendErrorT c msg idv s
    if p.2 then { p.1 with escaped := true } else p.1
  | .opClose => jsClose s

/-- Effect of a sequence of invocations on one transport instance. -/
def runOps (i : JVal) (ops : List AdapterOp) (s : AdapterState) : AdapterState :=
  ops.foldl (stepOp i) s

/-- Outcome of the /mcp POST route for one request: either a response
written directly by the route (no transport instance is ever created), or
the construction of one HttpOnceTransport bound to the parsed body. -/
inductive McpOutcome where
  | reply (w : HttpWrite)
  | adapter (inbound : JVal)

/-- The /mcp route handler, translated from the source: a falsy body gets
a 400 parse error; a jsonrpc field that is not strictly the string 2.0
gets a 400 invalid request; a falsy method field gets a 400 invalid
request; otherwise a transport is constructed for the body. The id echoed
on the two invalid-request replies is the body id or-else null. -/
def mcpHandler (inbound : JVal) : McpOutcome :=
  if !(truthy inbound) then
    .reply ⟨400, some (errorBody (-32700) "Parse error: Empty request body" .vnull)⟩
  else if !(strictEqStr (getField inbound "jsonrpc") "2.0") then
    .reply ⟨400, some (errorBody (-32600) "Invalid Request: jsonrpc must be \"2.0\""
                        (jsOr (getField inbound "id") .vnull))⟩
  else if !(truthy (getField inbound "method")) then
    .reply ⟨400, some (errorBody (-32600) "Invalid Request: method is required"
                        (jsOr (getField inbound "id") .vnull))⟩
  else .adapter inbound

/-- The registered express error handler, translated from the source: an
unconditional 500 with a plain object body carrying the error message; the
body is not a JSON-RPC envelope and has no error code field. -/
def expressErrorHandler (msg : String) : HttpWrite :=
  ⟨500, some (.vobj [("error", .vstr "Internal Server Error"),
                     ("message", .vstr msg)])⟩

/-- The /mcp pipeline including the express json body parser stage: a raw
body that does not parse as JSON makes the parser middleware fail, which
express routes past the route handler to the registered error handler;
a parsed body reaches the route handler. The none case carries the parser
error message. -/
def mcpPipeline (raw : Option JVal) (parseMsg : String) : McpOutcome :=
  match raw with
  | none => .reply (expressErrorHandler parseMsg)
  | some b => mcpHandler b

/-- The TOOL_HANDLERS table of request-handler.ts, mapping each registered
tool name to the RequestHandler method name. -/
def toolHandlerTable : List (String × String) :=
  [("get_sector_by_name", "getSectorByName"),
   ("list_sectors", "listSectors"),
   ("list_countries", "listCountries"),
   ("list_regions", "listRegions"),
   ("get_report_types", "getReportTypes"),
   ("get_reports_by_filters", "getReportsByFilters"),
   ("get_malware_by_name", "getMalwareByName"),
   ("get_campaigns_by_filters", "getCampaignsByFilters"),
   ("get_indicators_by_object_and_type", "getIndicatorsByObjectAndType"),
   ("get_stix_relationships_distribution", "getStixRelationshipsDistribution"),
   ("get_stix_relationships_distribution_with_dynamic_filters",
    "getStixRelationshipsDistributionWithDynamicFilters")]

/-- Exceptions that can be thrown inside the tools/call request handler:
the McpError raised for an unregistered tool name with the JSON-RPC code
for method not found, an axios error from the upstream OpenCTI call, or
any other error with its message. -/
inductive ThrownErr where
  | mcpErr (code : Int) (emsg : String)
  | axiosErr (info : String)
  | otherErr (emsg : String)

/-- Behaviour of the external RequestHandler method call for one tool
invocation: a result value, or a thrown exception. -/
inductive UpstreamOutcome where
  | ok (result : JVal)
  | thrown (e : ThrownErr)

/-- Payload returned by the tools/call handler to the session engine: the
text of the single content block and whether the isError field is set. -/
structure CallResult where
  contentText : String
  isErrorFlag : Bool

/-- The handleError method of the server class in the HTTP once variant
(tool-definitions.ts server section): every category of error is turned
into a content block with the isError flag set; nothing is rethrown. -/
def handleErrorOnce : ThrownErr → CallResult
  | .axiosErr info => ⟨"OpenCTI API error: " ++ info, true⟩
  | .mcpErr _ emsg => ⟨"MCP Error: " ++ emsg, true⟩
  | .otherErr emsg => ⟨"Unexpected error: " ++ emsg, true⟩

/-- The handleError method of the server class in the SSE variant
(index-http.ts): only axios errors are converted to a content block with
the isError flag; every other error, in particular the McpError for an
unregistered tool, is rethrown to the session engine. -/
def handleErrorSse : ThrownErr → Except ThrownErr CallResult
  | .axiosErr info => .ok ⟨"OpenCTI API error: " ++ info, true⟩
  | e => .error e

/-- The tools/call request handler of the HTTP once variant: look up the
tool name in the handler table, throw McpError with the method-not-found
code when absent, otherwise run the upstream method; the surrounding
catch converts every thrown error through handleErrorOnce, so the handler
always returns a result and never rejects. The stringify argument models
the JSON serialization of the upstream result into the content text. -/
def callToolOnce (upstream : String → UpstreamOutcome) (stringify : JVal → String)
    (toolName : String) : Except ThrownErr CallResult :=
  match toolHandlerTable.lookup toolName with
  | none => .ok (handleErrorOnce (.mcpErr (-32601) ("Unknown tool: " ++ toolName)))
  | some _ =>
    match upstream toolName with
    | .ok v => .ok ⟨stringify v, false⟩
    | .thrown e => .ok (handleErrorOnce e)

/-- The tools/call request handler of the SSE variant: identical lookup
and upstream call, but the catch delegates to handleErrorSse, which
rethrows every non-axios error; a rejection is converted by the session
engine into a JSON-RPC protocol error response. -/
def callToolSse (upstream : String → UpstreamOutcome) (stringify : JVal → String)
    (toolName : String) : Except ThrownErr CallResult :=
  match toolHandlerTable.lookup toolName with
  | none => handleErrorSse (.mcpErr (-32601) ("Unknown tool: " ++ toolName))
  | some _ =>
    match upstream toolName with
    | .ok v => .ok ⟨stringify v, false⟩
    | .thrown e => handleErrorSse e

/-- The JSON value of the tools/call result as the session engine wraps
it: a content array with one text block, plus the isError field when the
handler set it. -/
def encodeCallResult (r : CallResult) : JVal :=
  let base := [("content", JVal.varr [JVal.vobj
                 [("type", JVal.vstr "text"), ("text", JVal.vstr r.contentText)]])]
  if r.isErrorFlag then .vobj (base ++ [("isError", JVal.vbool true)])
  else .vobj base

/-- The complete JSON-RPC response message the session engine passes to
the transport send method for a tools/call result, carrying the id of the
originating request. -/
def sdkResponse (inbound : JVal) (r : CallResult) : JVal :=
  .vobj [("jsonrpc", .vstr "2.0"), ("id", getField inbound "id"),
         ("result", encodeCallResult r)]

/-- Whether a value is a plain object. -/
def isObj : JVal → Bool
  | .vobj _ => true
  | _ => false

/-- The condition under which the /mcp route handler rejects a parsed
body before constructing a transport: falsy body, jsonrpc field not
strictly the string 2.0, or falsy method field. -/
def envelopeMalformed (b : JVal) : Bool :=
  !(truthy b) || !(strictEqStr (getField b "jsonrpc") "2.0") ||
    !(truthy (getField b "method"))

/-- The HTTP status of the response written directly by the endpoint,
when there is one. -/
def replyStatus : McpOutcome → Option Nat
  | .reply w => some w.status
  | .adapter _ => none

/-- The numeric error code carried under the error field of the body of
the response written directly by the endpoint, when there is one. -/
def replyErrCode : McpOutcome → Option Int
  | .reply w =>
    match w.body with
    | some b =>
      match getField (getField b "error") "code" with
      | .vnum c => some c
      | _ => none
    | none => none
  | .adapter _ => none

/-- An adapter state whose responded flag is set, used to exhibit the
no-op behaviour of a second send. -/
def respondedState : AdapterState := { mkState with responded := true }

/-- A delivery oracle under which the session engine sink never throws. -/
def noThrow : JVal → Bool := fun _ => false

/-- A request whose id is the number zero, a falsy JavaScript value. -/
def reqZero : JVal :=
  .vobj [("jsonrpc", .vstr "2.0"), ("id", .vnum 0), ("method", .vstr "tools/list")]

/-- A bare result value as the session engine would hand to send on the
wrap path. -/
def bareRes : JVal := .vobj [("tools", .varr [])]

/-- An initialize message without an id field: a notification by the
classification rule of the spec. -/
def noIdInit : JVal := .vobj [("jsonrpc", .vstr "2.0"), ("method", .vstr "initialize")]

/-- A one-element JSON-RPC batch: a JSON array holding one well-formed
ping request. -/
def pingElem : JVal :=
  .vobj [("jsonrpc", .vstr "2.0"), ("id", .vnum 1), ("method", .vstr "ping")]

/-- The batch array around pingElem. -/
def batchOne : JVal := .varr [pingElem]

/-- A concrete well-formed tools/call request with id three. -/
def reqCall : JVal :=
  .vobj [("jsonrpc", .vstr "2.0"), ("id", .vnum 3), ("method", .vstr "tools/call")]

/-! Helper lemmas about the embedding. -/

theorem isEmpty_eq_nil {α : Type _} {l : List α} (h : l.isEmpty = true) : l = [] := by
  cases l <;> simp_all [List.isEmpty]

theorem strictEqStr_eq {v : JVal} {s : String} (h : strictEqStr v s = true) :
    v = .vstr s := by
  cases v <;> simp_all [strictEqStr]

theorem isObj_truthy {v : JVal} (h : isObj v = true) :
    truthy v = true ∧ typeofObject v = true := by
  cases v <;> simp_all [isObj, truthy, typeofObject]

theorem jsOr_truthy {a b : JVal} (h : truthy a = true) : jsOr a b = a := by
  simp [jsOr, h]

theorem isObj_not_nullundef {v : JVal} (h : isObj v = true) :
    isNullOrUndef v = false := by
  cases v <;> simp_all [isObj, isNullOrUndef]

/-- Relation between the writes of two adapter states along one step: the
writes are unchanged, or the step appended the first and only write. -/
def WritesOk (a b : AdapterState) : Prop :=
  b.writes = a.writes ∨ (a.writes = [] ∧ ∃ w, b.writes = [w])

theorem writesOk_refl (a : AdapterState) : WritesOk a a := Or.inl rfl

theorem writesOk_trans {a b c : AdapterState} (h1 : WritesOk a b)
    (h2 : WritesOk b c) : WritesOk a c := by
  rcases h1 with h1 | ⟨ha, w, hw⟩
  · rcases h2 with h2 | ⟨hb, w, hw⟩
    · exact Or.inl (h2.trans h1)
    · exact Or.inr ⟨h1 ▸ hb, w, hw⟩
  · rcases h2 with h2 | ⟨hb, w2, hw2⟩
    · exact Or.inr ⟨ha, w, h2.trans hw⟩
    · rw [hw] at hb; cases hb

theorem writesOk_mk {a b : AdapterState} (h : b.writes = a.writes) :
    WritesOk a b := Or.inl h

theorem writesOk_len {a b : AdapterState} (h : WritesOk a b)
    (ha : a.writes.length ≤ 1) : b.writes.length ≤ 1 := by
  rcases h with h | ⟨_, w, hw⟩
  · rw [h]; exact ha
  · rw [hw]; simp

theorem jsSend_writesOk (i m : JVal) (s : AdapterState) :
    WritesOk s (jsSend i m s) := by
  cases hr : s.responded
  · cases he : s.writes.isEmpty
    · simp [jsSend, hr, he, WritesOk]
    · cases hd : isDirectResponse m
      · exact Or.inr ⟨isEmpty_eq_nil he, ⟨200, some (wrapBody i m)⟩,
          by simp [jsSend, hr, he, hd, isEmpty_eq_nil he]⟩
      · exact Or.inr ⟨isEmpty_eq_nil he, ⟨200, some m⟩,
          by simp [jsSend, hr, he, hd, isEmpty_eq_nil he]⟩
  · simp [jsSend, hr, WritesOk]

theorem jsSendErrorT_writesOk (c : Int) (msg : String) (idv : JVal)
    (s : AdapterState) : WritesOk s (jsSendErrorT c msg idv s).1 := by
  cases hr : s.responded
  · cases he : s.writes.isEmpty
    · simp [jsSendErrorT, hr, he, WritesOk]
    · exact Or.inr ⟨isEmpty_eq_nil he, ⟨200, some (errorBody c msg idv)⟩,
        by simp [jsSendErrorT, hr, he, isEmpty_eq_nil he]⟩
  · simp [jsSendErrorT, hr, WritesOk]

theorem ackNoContent_writesOk (s : AdapterState) : WritesOk s (ackNoContent s) := by
  cases he : s.writes.isEmpty
  · simp [ackNoContent, he, WritesOk]
  · exact Or.inr ⟨isEmpty_eq_nil he, ⟨204, none⟩,
      by simp [ackNoContent, he, isEmpty_eq_nil he]⟩

theorem jsClose_writesOk (s : AdapterState) : WritesOk s (jsClose s) := by
  cases hr : s.responded
  · cases he : s.writes.isEmpty
    · simp [jsClose, hr, he, WritesOk]
    · exact Or.inr ⟨isEmpty_eq_nil he, ⟨204, none⟩,
        by simp [jsClose, hr, he, isEmpty_eq_nil he]⟩
  · simp [jsClose, hr, WritesOk]

theorem deliverSeq_fields (d : JVal → Bool) (msgs : List JVal) (s : AdapterState) :
    (deliverSeq d msgs s).1.writes = s.writes ∧
    (deliverSeq d msgs s).1.responded = s.responded ∧
    (deliverSeq d msgs s).1.resolved = s.resolved ∧
    (deliverSeq d msgs s).1.errors = s.errors ∧
    (deliverSeq d msgs s).1.escaped = s.escaped := by
  induction msgs generalizing s with
  | nil => simp [deliverSeq]
  | cons m rest ih =>
    unfold deliverSeq
    split_ifs with h1
    · simp
    · simpa using ih _

theorem startTry_writesOk (d : JVal → Bool) (i : JVal) (s : AdapterState) :
    WritesOk s (startTry d i s).1 := by
  unfold startTry
  split_ifs with h1 h2 h3 h4 h5 h6
  · exact writesOk_refl s
  · exact jsSend_writesOk _ _ _
  · exact ackNoContent_writesOk _
  · exact jsSend_writesOk _ _ _
  · exact jsSendErrorT_writesOk _ _ _ _
  · exact jsSendErrorT_writesOk _ _ _ _
  · cases i <;> exact writesOk_mk (deliverSeq_fields _ _ _).1

theorem startCatch_writesOk (i : JVal) (s : AdapterState) :
    WritesOk s (startCatch i s).1 := by
  cases hr : s.responded
  · cases hn : isNullOrUndef i
    · have h := jsSendErrorT_writesOk (-32603) "Internal error"
        (jsOr (getField i "id") .vnull) { s with errors := s.errors + 1 }
      simpa [startCatch, hr, hn, WritesOk] using h
    · simp [startCatch, hr, hn, WritesOk]
  · simp [startCatch, hr, WritesOk]

theorem jsStart_writesOk (d : JVal → Bool) (i : JVal) (s : AdapterState) :
    WritesOk s (jsStart d i s) := by
  have h1 := startTry_writesOk d i s
  have h2 := startCatch_writesOk i (startTry d i s).1
  cases hp : (startTry d i s).2
  · simpa [jsStart, hp] using h1
  · cases hq : (startCatch i (startTry d i s).1).2
    · simpa [jsStart, hp, hq] using writesOk_trans h1 h2
    · have h3 : WritesOk s { (startCatch i (startTry d i s).1).1 with escaped := true } :=
        writesOk_trans h1 (writesOk_trans h2 (writesOk_mk rfl))
      simpa [jsStart, hp, hq] using h3

theorem stepOp_writesOk (i : JVal) (s : AdapterState) (op : AdapterOp) :
    WritesOk s (stepOp i s op) := by
  cases op with
  | opStart d => exact jsStart_writesOk d i s
  | opSend m => exact jsSend_writesOk i m s
  | opSendErr c msg idv =>
    have h := jsSendErrorT_writesOk c msg idv s
    cases hb : (jsSendErrorT c msg idv s).2
    · simpa [stepOp, hb] using h
    · have h3 : WritesOk s { (jsSendErrorT c msg idv s).1 with escaped := true } :=
        writesOk_trans h (writesOk_mk rfl)
      simpa [stepOp, hb] using h3
  | opClose => exact jsClose_writesOk s

theorem runOps_len (i : JVal) (ops : List AdapterOp) (s : AdapterState)
    (hs : s.writes.length ≤ 1) : (runOps i ops s).writes.length ≤ 1 := by
  induction ops generalizing s with
  | nil => exact hs
  | cons op rest ih =>
    exact ih _ (writesOk_len (stepOp_writesOk i s op) hs)

/-- Characterization of a throwing run of the try block of start from a
fresh state: either the structural validation threw immediately and the
state is untouched, or every inline branch and format check was passed,
the inbound value was delivered to the sink once (only a plain object can
reach the delivery branch) and the sink threw. -/
theorem startTry_throw_char (d : JVal → Bool) (i : JVal)
    (h : (startTry d i mkState).2 = true) :
    startTry d i mkState = (mkState, true) ∨
    startTry d i mkState = deliverSeq d [i] mkState := by
  by_cases hc1 : (!(truthy i) || !(typeofObject i)) = true
  · left; simp [startTry, hc1]
  · right
    rw [Bool.not_eq_true] at hc1
    by_cases hm1 : strictEqStr (getField i "method") "initialize" = true
    · exfalso; simp [startTry, hc1, hm1] at h
    · rw [Bool.not_eq_true] at hm1
      by_cases hm2 : strictEqStr (getField i "method") "notifications/initialized" = true
      · exfalso; simp [startTry, hc1, hm1, hm2] at h
      · rw [Bool.not_eq_true] at hm2
        by_cases hm3 : strictEqStr (getField i "method") "ping" = true
        · exfalso; simp [startTry, hc1, hm1, hm2, hm3] at h
        · rw [Bool.not_eq_true] at hm3
          by_cases hf1 : (hasField i "id" &&
              (!(truthy (getField i "jsonrpc")) || !(truthy (getField i "method")))) = true
          · exfalso; simp [startTry, hc1, hm1, hm2, hm3, hf1, jsSendErrorT, mkState] at h
          · rw [Bool.not_eq_true] at hf1
            by_cases hf2 : (!(hasField i "id") && !(truthy (getField i "method"))) = true
            · exfalso
              simp [startTry, hc1, hm1, hm2, hm3, hf1, hf2, jsSendErrorT, mkState] at h
            · rw [Bool.not_eq_true] at hf2
              cases i with
              | vobj fs => simp [startTry, hc1, hm1, hm2, hm3, hf1, hf2]
              | varr elems => exfalso; simp_all [hasField, getField, truthy]
              | vnull => exfalso; simp_all [truthy]
              | vundefined => exfalso; simp_all [truthy]
              | vbool b => exfalso; simp_all [typeofObject, truthy]
              | vnum n => exfalso; simp_all [typeofObject, truthy]
              | vstr s => exfalso; simp_all [typeofObject, truthy]

/-- Behaviour of the catch block of start on a state that has not yet
responded or written, for an inbound value on which property access does
not throw: one internal-error write and a resolved completion promise. -/
theorem catch_after_fresh (i : JVal) (s : AdapterState)
    (hr : s.responded = false) (hw : s.writes = [])
    (hn : isNullOrUndef i = false) :
    startCatch i s =
      ({ s with
          errors := s.errors + 1, responded := true, resolved := true,
          writes := [⟨200, some (errorBody (-32603) "Internal error" (jsOr (getField i "id") .vnull))⟩] },
        false) := by
  simp [startCatch, hr, hn, jsSendErrorT, hw]

/-! Claim theorems. -/

/-- C1: across any sequence of start, send, sendError and close
invocations on one transport instance bound to one inbound message and
one response object, at most one HTTP write reaches the client, and a
send on an instance whose responded flag is already set is a no-op that
changes nothing. -/
theorem at_most_one_response (i : JVal) (ops : List AdapterOp) :
    (runOps i ops mkState).writes.length ≤ 1 ∧
    (∀ m s, s.responded = true → jsSend i m s = s) :=
  ⟨runOps_len i ops mkState (by simp [mkState]),
   fun m s h => by simp [jsSend, h]⟩

/-- C1 witness: the at-most-one-write bound evaluated on the empty
invocation sequence, and the no-op behaviour of send on a concrete state
with the responded flag set. -/
theorem at_most_one_response_witness :
    (runOps JVal.vnull [] mkState).writes.length ≤ 1 ∧
    jsSend JVal.vnull JVal.vnull respondedState = respondedState :=
  ⟨(at_most_one_response JVal.vnull []).1,
   (at_most_one_response JVal.vnull []).2 JVal.vnull respondedState rfl⟩

/-- C7: for every initialize request (an object inbound with an id), the
transport writes exactly the fixed handshake response verbatim, never
consults the session engine sink, and the response result carries the
non-empty protocol version, a listChanged flag that is false, an empty
logging object, and the server name and version. -/
theorem handshake_fixed (i : JVal) (d : JVal → Bool) (hobj : isObj i = true)
    (hm : getField i "method" = .vstr "initialize")
    (hid : isUndef (getField i "id") = false) :
    (jsStart d i mkState).writes = [⟨200, some (handshakeResponse i)⟩] ∧
    (jsStart d i mkState).delivered = [] ∧
    getField (getField (handshakeResponse i) "result") "protocolVersion" = .vstr "2024-11-05" ∧
    ("2024-11-05" : String) ≠ "" ∧
    getField (getField (getField (getField (handshakeResponse i) "result") "capabilities") "tools") "listChanged" = .vbool false ∧
    getField (getField (getField (handshakeResponse i) "result") "capabilities") "logging" = .vobj [] ∧
    getField (getField (getField (handshakeResponse i) "result") "serverInfo") "name" = .vstr "opencti-server" ∧
    getField (getField (getField (handshakeResponse i) "result") "serverInfo") "version" = .vstr "0.1.0" := by
  obtain ⟨ht, hty⟩ := isObj_truthy hobj
  have h1 : truthy (handshakeResponse i) = true := rfl
  have h2 : truthy (getField (handshakeResponse i) "jsonrpc") = true := rfl
  have h3 : getField (handshakeResponse i) "id" = getField i "id" := rfl
  have hdir : isDirectResponse (handshakeResponse i) = true := by
    simp [isDirectResponse, h1, h2, h3, hid]
  refine ⟨?_, ?_, rfl, by decide, rfl, rfl, rfl, rfl⟩ <;>
    simp [jsStart, startTry, ht, hty, hm, strictEqStr, jsSend, mkState, hdir]

/-- C7 witness: the handshake behaviour evaluated on a concrete
initialize request with a string id. -/
theorem handshake_fixed_witness :
    (jsStart noThrow (JVal.vobj [("jsonrpc", JVal.vstr "2.0"), ("id", JVal.vstr "1"), ("method", JVal.vstr "initialize")]) mkState).writes
      = [⟨200, some (handshakeResponse (JVal.vobj [("jsonrpc", JVal.vstr "2.0"), ("id", JVal.vstr "1"), ("method", JVal.vstr "initialize")]))⟩] :=
  (handshake_fixed (JVal.vobj [("jsonrpc", JVal.vstr "2.0"), ("id", JVal.vstr "1"), ("method", JVal.vstr "initialize")]) noThrow rfl rfl rfl).1

/-- C8: for every ping request (an object inbound with an id), the
transport answers inline with an empty result object and the request id
echoed, and the session engine sink, hence the tool registry reachable
only through it, is never invoked. -/
theorem ping_inline (i : JVal) (d : JVal → Bool) (hobj : isObj i = true)
    (hm : getField i "method" = .vstr "ping")
    (hid : isUndef (getField i "id") = false) :
    (jsStart d i mkState).writes = [⟨200, some (pingResponse i)⟩] ∧
    (jsStart d i mkState).delivered = [] ∧
    getField (pingResponse i) "result" = .vobj [] ∧
    getField (pingResponse i) "id" = getField i "id" := by
  obtain ⟨ht, hty⟩ := isObj_truthy hobj
  have h1 : truthy (pingResponse i) = true := rfl
  have h2 : truthy (getField (pingResponse i) "jsonrpc") = true := rfl
  have h3 : getField (pingResponse i) "id" = getField i "id" := rfl
  have hdir : isDirectResponse (pingResponse i) = true := by
    simp [isDirectResponse, h1, h2, h3, hid]
  refine ⟨?_, ?_, rfl, rfl⟩ <;>
    simp [jsStart, startTry, ht, hty, hm, strictEqStr, jsSend, mkState, hdir]

/-- C8 witness: the inline ping behaviour evaluated on a concrete ping
request with a numeric id. -/
theorem ping_inline_witness :
    (jsStart noThrow pingElem mkState).writes = [⟨200, some (pingResponse pingElem)⟩] ∧
    (jsStart noThrow pingElem mkState).delivered = [] :=
  ⟨(ping_inline pingElem noThrow rfl rfl rfl).1,
   (ping_inline pingElem noThrow rfl rfl rfl).2.1⟩

/-- C9: for every inbound object whose method is the initialized
notification name, even when the message carries an id, the transport
writes status 204 with an empty body, marks itself responded and resolves
the completion signal, based on the method alone; the id is never echoed
because no body is written at all. -/
theorem ack_with_id (i : JVal) (d : JVal → Bool) (hobj : isObj i = true)
    (hm : getField i "method" = .vstr "notifications/initialized")
    (hid : hasField i "id" = true) :
    (jsStart d i mkState).writes = [⟨204, none⟩] ∧
    (jsStart d i mkState).resolved = true ∧
    (jsStart d i mkState).responded = true := by
  obtain ⟨ht, hty⟩ := isObj_truthy hobj
  simp [jsStart, startTry, ht, hty, hm, strictEqStr, ackNoContent, mkState]

/-- C9 witness: the 204 acknowledgement evaluated on a concrete
initialized notification that carries an id. -/
theorem ack_with_id_witness :
    (jsStart noThrow (JVal.vobj [("jsonrpc", JVal.vstr "2.0"), ("id", JVal.vnum 7), ("method", JVal.vstr "notifications/initialized")]) mkState).writes
      = [⟨204, none⟩] :=
  (ack_with_id (JVal.vobj [("jsonrpc", JVal.vstr "2.0"), ("id", JVal.vnum 7), ("method", JVal.vstr "notifications/initialized")]) noThrow rfl rfl rfl).1

/-- C2 counterexample: a well-formed request whose id is the number zero,
a falsy value, loses its id on the wrap path of send: the written body
carries a null id instead of the zero the claim requires. -/
theorem id_echo_cex :
    getField reqZero "id" = JVal.vnum 0 ∧
    (jsSend reqZero bareRes mkState).writes = [⟨200, some (wrapBody reqZero bareRes)⟩] ∧
    getField (wrapBody reqZero bareRes) "id" = JVal.vnull ∧
    JVal.vnull ≠ JVal.vnum 0 :=
  ⟨rfl, rfl, rfl, nofun⟩

/-- C2 amended: for a request with a truthy id the wrap path of send
echoes the id exactly and writes exactly one response, the verbatim path
writes the prebuilt message unchanged so its id is preserved, and the
error path echoes the truthy id exactly; a falsy id such as zero or the
empty string is replaced by null on the wrap and error paths because the
source computes the echoed id with a truthiness or-else. -/
theorem id_echo_amended (i m : JVal) :
    (truthy (getField i "id") = true →
      getField (wrapBody i m) "id" = getField i "id") ∧
    (isDirectResponse m = false →
      (jsSend i m mkState).writes = [⟨200, some (wrapBody i m)⟩]) ∧
    (isDirectResponse m = true →
      (jsSend i m mkState).writes = [⟨200, some m⟩]) ∧
    (∀ c : Int, ∀ msg : String, truthy (getField i "id") = true →
      (jsSendErrorT c msg (jsOr (getField i "id") .vnull) mkState).1.writes
        = [⟨200, some (errorBody c msg (getField i "id"))⟩]) := by
  refine ⟨fun ht => ?_, fun hd => ?_, fun hd => ?_, fun c msg ht => ?_⟩
  · have hw : getField (wrapBody i m) "id" = jsOr (getField i "id") .vnull := rfl
    rw [hw]; exact jsOr_truthy ht
  · simp [jsSend, mkState, hd]
  · simp [jsSend, mkState, hd]
  · rw [jsOr_truthy ht]; simp [jsSendErrorT, mkState]

/-- C2 witness: the amended id behaviour evaluated on a concrete request
with the truthy id one, on the wrap path and on the error path. -/
theorem id_echo_amended_witness :
    getField (wrapBody pingElem bareRes) "id" = getField pingElem "id" ∧
    (jsSend pingElem bareRes mkState).writes = [⟨200, some (wrapBody pingElem bareRes)⟩] ∧
    (jsSendErrorT (-32603) "Internal error" (jsOr (getField pingElem "id") .vnull) mkState).1.writes
      = [⟨200, some (errorBody (-32603) "Internal error" (getField pingElem "id"))⟩] :=
  ⟨(id_echo_amended pingElem bareRes).1 rfl,
   (id_echo_amended pingElem bareRes).2.1 rfl,
   (id_echo_amended pingElem bareRes).2.2.2 (-32603) "Internal error" rfl⟩

/-- C3 counterexample: an initialize message without an id is a
notification, yet the transport intercepts it by method before the
notification check, builds a handshake response whose id field is
undefined, and send therefore wraps it and writes an HTTP 200 with a
JSON-RPC body instead of the claimed 204 with empty body. -/
theorem no_content_cex :
    hasField noIdInit "id" = false ∧
    (jsStart noThrow noIdInit mkState).writes
      = [⟨200, some (wrapBody noIdInit (handshakeResponse noIdInit))⟩] ∧
    (200 : Nat) ≠ 204 :=
  ⟨rfl, rfl, by decide⟩

/-- C3 amended: a notification is answered with status 204 and an empty
body only on the two no-content paths of the source: an inbound object
without id whose method is the initialized notification name, and the
close method invoked on a transport that has not responded and has sent
no headers; notifications with the method initialize or ping instead
receive a wrapped 200 JSON-RPC body, and other notifications receive
nothing from start itself. -/
theorem no_content_amended (i : JVal) (d : JVal → Bool) (hobj : isObj i = true)
    (hnoid : hasField i "id" = false)
    (hm : getField i "method" = .vstr "notifications/initialized") :
    ((jsStart d i mkState).writes = [⟨204, none⟩] ∧
     (jsStart d i mkState).resolved = true) ∧
    (∀ s : AdapterState, s.responded = false → s.writes = [] →
      (jsClose s).writes = [⟨204, none⟩]) := by
  obtain ⟨ht, hty⟩ := isObj_truthy hobj
  constructor
  · simp [jsStart, startTry, ht, hty, hm, strictEqStr, ackNoContent, mkState]
  · intro s hr hw
    simp [jsClose, hr, hw]

/-- C3 witness: the amended no-content behaviour evaluated on a concrete
initialized notification without id and on a fresh state for close. -/
theorem no_content_amended_witness :
    (jsStart noThrow (JVal.vobj [("jsonrpc", JVal.vstr "2.0"), ("method", JVal.vstr "notifications/initialized")]) mkState).writes
      = [⟨204, none⟩] ∧
    (jsClose mkState).writes = [⟨204, none⟩] :=
  ⟨((no_content_amended (JVal.vobj [("jsonrpc", JVal.vstr "2.0"), ("method", JVal.vstr "notifications/initialized")]) noThrow rfl rfl rfl).1).1,
   (no_content_amended (JVal.vobj [("jsonrpc", JVal.vstr "2.0"), ("method", JVal.vstr "notifications/initialized")]) noThrow rfl rfl rfl).2 mkState rfl rfl⟩

/-- C4 counterexample: a body that is not parseable JSON never reaches
the /mcp route handler; the json middleware failure lands in the express
error handler of the source, which answers HTTP 500 with a body that is
not a JSON-RPC envelope and carries no error code, contradicting the
claimed 400 with a non-null error code. -/
theorem malformed_envelope_cex :
    mcpPipeline none "Unexpected token" = .reply (expressErrorHandler "Unexpected token") ∧
    replyStatus (mcpPipeline none "Unexpected token") = some 500 ∧
    replyErrCode (mcpPipeline none "Unexpected token") = none ∧
    (500 : Nat) ≠ 400 :=
  ⟨rfl, rfl, rfl, by decide⟩

/-- C4 amended: every parsed body the route handler classifies as
malformed (falsy body, jsonrpc not strictly the string 2.0, or falsy
method) yields HTTP 400 with a JSON-RPC body carrying a non-null numeric
error code, and never constructs a transport; the code is -32700 only for
a falsy body, while non-object bodies and wrong or missing jsonrpc or
method fields yield -32600; conversely a well-formed body always
constructs a transport; a body that is not parseable JSON is answered by
the express error handler with HTTP 500 and no JSON-RPC error code. -/
theorem malformed_envelope_amended (b : JVal) :
    (envelopeMalformed b = true →
      replyStatus (mcpHandler b) = some 400 ∧
      (∃ c : Int, replyErrCode (mcpHandler b) = some c) ∧
      (∀ j : JVal, mcpHandler b ≠ .adapter j)) ∧
    (envelopeMalformed b = false → mcpHandler b = .adapter b) := by
  constructor
  · intro h
    by_cases h1 : truthy b = true
    · by_cases h2 : strictEqStr (getField b "jsonrpc") "2.0" = true
      · by_cases h3 : truthy (getField b "method") = true
        · exfalso; simp [envelopeMalformed, h1, h2, h3] at h
        · have hm : mcpHandler b = .reply ⟨400, some (errorBody (-32600)
              "Invalid Request: method is required" (jsOr (getField b "id") .vnull))⟩ := by
            simp [mcpHandler, h1, h2, h3]
          rw [hm]
          exact ⟨rfl, ⟨-32600, rfl⟩, fun j hc => McpOutcome.noConfusion hc⟩
      · have hm : mcpHandler b = .reply ⟨400, some (errorBody (-32600)
            "Invalid Request: jsonrpc must be \"2.0\"" (jsOr (getField b "id") .vnull))⟩ := by
          simp [mcpHandler, h1, h2]
        rw [hm]
        exact ⟨rfl, ⟨-32600, rfl⟩, fun j hc => McpOutcome.noConfusion hc⟩
    · have hm : mcpHandler b = .reply ⟨400, some (errorBody (-32700)
          "Parse error: Empty request body" .vnull)⟩ := by
        simp [mcpHandler, h1]
      rw [hm]
      exact ⟨rfl, ⟨-32700, rfl⟩, fun j hc => McpOutcome.noConfusion hc⟩
  · intro h
    simp [envelopeMalformed] at h
    obtain ⟨⟨h1, h2⟩, h3⟩ := h
    simp [mcpHandler, h1, h2, h3]

/-- C4 witness: the amended malformed-envelope behaviour evaluated on a
concrete object with neither jsonrpc nor method field. -/
theorem malformed_envelope_amended_witness :
    replyStatus (mcpHandler (JVal.vobj [("foo", JVal.vstr "bar")])) = some 400 ∧
    mcpHandler (JVal.vobj [("jsonrpc", JVal.vstr "2.0"), ("id", JVal.vnum 2), ("method", JVal.vstr "tools/list")])
      = .adapter (JVal.vobj [("jsonrpc", JVal.vstr "2.0"), ("id", JVal.vnum 2), ("method", JVal.vstr "tools/list")]) :=
  ⟨((malformed_envelope_amended (JVal.vobj [("foo", JVal.vstr "bar")])).1 rfl).1,
   (malformed_envelope_amended (JVal.vobj [("jsonrpc", JVal.vstr "2.0"), ("id", JVal.vnum 2), ("method", JVal.vstr "tools/list")])).2 rfl⟩

/-- C5 counterexample: in the SSE server variant, the handleError method
rethrows the McpError raised for an unregistered tool, so the
method-not-found condition leaves the tools/call handler as a rejection
that the session engine turns into a JSON-RPC protocol error, instead of
a successful result with the isError flag. -/
theorem unknown_tool_cex :
    callToolSse (fun _ => .ok .vnull) (fun _ => "") "nonexistent_tool"
      = .error (.mcpErr (-32601) "Unknown tool: nonexistent_tool") ∧
    toolHandlerTable.lookup "nonexistent_tool" = none :=
  ⟨rfl, rfl⟩

/-- C5 amended: in the HTTP once server variant, a tools/call with an
unregistered name always returns a successful result whose isError flag
is set and whose text names the unknown tool, never a rejection; wrapped
by the session engine and written by send, it reaches the client as an
HTTP 200 whose result carries isError true; only the SSE variant
propagates the method-not-found condition as a protocol error. -/
theorem unknown_tool_amended (upstream : String → UpstreamOutcome)
    (stringify : JVal → String) (name : String) (i : JVal)
    (hmiss : toolHandlerTable.lookup name = none)
    (hid : isUndef (getField i "id") = false) :
    ∃ r : CallResult,
      callToolOnce upstream stringify name = .ok r ∧
      r.isErrorFlag = true ∧
      (jsSend i (sdkResponse i r) mkState).writes = [⟨200, some (sdkResponse i r)⟩] ∧
      getField (getField (sdkResponse i r) "result") "isError" = .vbool true := by
  refine ⟨handleErrorOnce (.mcpErr (-32601) ("Unknown tool: " ++ name)), ?_, rfl, ?_, rfl⟩
  · simp [callToolOnce, hmiss]
  · have h1 : truthy (sdkResponse i (handleErrorOnce (.mcpErr (-32601) ("Unknown tool: " ++ name)))) = true := rfl
    have h2 : truthy (getField (sdkResponse i (handleErrorOnce (.mcpErr (-32601) ("Unknown tool: " ++ name)))) "jsonrpc") = true := rfl
    have h3 : getField (sdkResponse i (handleErrorOnce (.mcpErr (-32601) ("Unknown tool: " ++ name)))) "id" = getField i "id" := rfl
    have hdir : isDirectResponse (sdkResponse i (handleErrorOnce (.mcpErr (-32601) ("Unknown tool: " ++ name)))) = true := by
      simp [isDirectResponse, h1, h2, h3, hid]
    simp [jsSend, mkState, hdir]

/-- C5 witness: the amended unknown-tool behaviour evaluated on the
concrete name used by the spec scenario and a concrete request id. -/
theorem unknown_tool_amended_witness :
    ∃ r : CallResult,
      callToolOnce (fun _ => .ok .vnull) (fun _ => "") "nonexistent_tool" = .ok r ∧
      r.isErrorFlag = true ∧
      (jsSend reqCall (sdkResponse reqCall r) mkState).writes = [⟨200, some (sdkResponse reqCall r)⟩] ∧
      getField (getField (sdkResponse reqCall r) "result") "isError" = .vbool true :=
  unknown_tool_amended (fun _ => .ok .vnull) (fun _ => "") "nonexistent_tool" reqCall rfl rfl

/-- C6 counterexample: for a null inbound value, start throws, the
exception is routed to the error callback, but reading the id property of
null inside the catch block throws again: no internal-error response is
written, the completion signal never fires, and the second exception
escapes start. -/
theorem start_throw_cex :
    (jsStart noThrow JVal.vnull mkState).errors = 1 ∧
    (jsStart noThrow JVal.vnull mkState).writes = [] ∧
    (jsStart noThrow JVal.vnull mkState).resolved = false ∧
    (jsStart noThrow JVal.vnull mkState).escaped = true :=
  ⟨rfl, rfl, rfl, rfl⟩

/-- C6 amended: for every inbound value other than null or undefined, if
the try block of start throws from a fresh state then the exception is
routed to the error callback exactly once, the transport writes one
internal-error response with code -32603 whose id is the inbound id when
truthy and null otherwise, the completion signal fires, and nothing
escapes start; for null or undefined inbound values the catch block
itself throws while reading the id, as the counterexample shows. -/
theorem start_throw_amended (i : JVal) (d : JVal → Bool)
    (hn : isNullOrUndef i = false)
    (h : (startTry d i mkState).2 = true) :
    (jsStart d i mkState).errors = 1 ∧
    (jsStart d i mkState).responded = true ∧
    (jsStart d i mkState).resolved = true ∧
    (jsStart d i mkState).escaped = false ∧
    (jsStart d i mkState).writes
      = [⟨200, some (errorBody (-32603) "Internal error" (jsOr (getField i "id") .vnull))⟩] := by
  rcases startTry_throw_char d i h with hA | hB
  · have hc := catch_after_fresh i mkState rfl rfl hn
    simp only [jsStart, hA, hc]
    simp [mkState]
  · have hf := deliverSeq_fields d [i] mkState
    have hr : (deliverSeq d [i] mkState).1.responded = false := hf.2.1
    have hw : (deliverSeq d [i] mkState).1.writes = [] := hf.1
    have herr : (deliverSeq d [i] mkState).1.errors = 0 := hf.2.2.2.1
    have hesc : (deliverSeq d [i] mkState).1.escaped = false := hf.2.2.2.2
    have hc := catch_after_fresh i (deliverSeq d [i] mkState).1 hr hw hn
    rw [hB] at h
    simp [jsStart, hB, h, hc, herr, hesc]

/-- C6 witness: the amended throw behaviour evaluated on a concrete
truthy non-object inbound value, for which the structural validation of
start throws. -/
theorem start_throw_amended_witness :
    (jsStart noThrow (JVal.vstr "oops") mkState).writes
      = [⟨200, some (errorBody (-32603) "Internal error" JVal.vnull)⟩] :=
  (start_throw_amended (JVal.vstr "oops") noThrow rfl rfl).2.2.2.2

/-- C10 counterexample: a one-element JSON batch array is classified as a
notification without method, so start answers it with an invalid-request
error and delivers nothing to the session engine sink; the array
iteration branch of the source is unreachable for JSON arrays. -/
theorem batch_cex :
    (jsStart noThrow batchOne mkState).delivered = [] ∧
    (jsStart noThrow batchOne mkState).delivered ≠ [pingElem] ∧
    (jsStart noThrow batchOne mkState).writes
      = [⟨200, some (errorBody (-32600) "Invalid Request" .vnull)⟩] :=
  ⟨rfl, nofun, rfl⟩

/-- C10 amended: for every JSON array inbound value, start delivers no
element at all: a JSON array has no method property, so it fails the
notification format check and is answered with an invalid-request error
with id null; moreover the endpoint rejects every array body with HTTP
400 before a transport exists, because an array has no jsonrpc field. -/
theorem batch_amended (msgs : List JVal) (d : JVal → Bool) :
    (jsStart d (.varr msgs) mkState).delivered = [] ∧
    (jsStart d (.varr msgs) mkState).writes
      = [⟨200, some (errorBody (-32600) "Invalid Request" .vnull)⟩] ∧
    mcpHandler (.varr msgs)
      = .reply ⟨400, some (errorBody (-32600)
          "Invalid Request: jsonrpc must be \"2.0\"" .vnull)⟩ := by
  refine ⟨?_, ?_, ?_⟩
  · simp [jsStart, startTry, truthy, typeofObject, getField, strictEqStr, hasField,
      jsSendErrorT, mkState]
  · simp [jsStart, startTry, truthy, typeofObject, getField, strictEqStr, hasField,
      jsSendErrorT, mkState]
  · simp [mcpHandler, truthy, getField, strictEqStr, jsOr]

end OpenCTIMcp
